import Mathlib

/-! Shallow embedding of the Yoints pointer-flee toy: the per-frame motion
step (`tick`), the audio parameter mapping, and the lazy audio-graph
initialisation, translated from `src/main.js` and from the unnamed variant
`src/unnamed/part_000`.  JS numbers are modelled as real numbers. -/

noncomputable section

namespace Yoints

/-- A 2D vector (position or velocity), modelling a JS `{x, y}` pair. -/
@[ext]
structure Vec where
  x : ℝ
  y : ℝ

/-- The movable region's rectangle, in region-local coordinates (origin 0). -/
structure Rect where
  width : ℝ
  height : ℝ

/-- Entity state: the module-level `pos` and `velocity` of the scripts. -/
@[ext]
structure State where
  pos : Vec
  velocity : Vec

/-- Audio targets written during one frame; `none` means the corresponding
parameter is not written on this frame. -/
structure Targets where
  gain : Option ℝ
  filterFreq : Option ℝ
  rate : Option ℝ

/-- Component-wise clamp, `Math.max(lo, Math.min(hi, v))`. -/
def clamp (lo hi v : ℝ) : ℝ := max lo (min hi v)

/- Constants of `src/main.js`. -/

def PADDING : ℝ := 40
def SPRITE_R : ℝ := 60
def MAX_SPEED : ℝ := 20000
def MIN_DISTANCE : ℝ := 8
def SPEED_CURVE : ℝ := 1
def MOVING_THRESHOLD : ℝ := 5
def AUDIO_GAIN : ℝ := 0.2
def FILTER_MIN_HZ : ℝ := 200
def FILTER_MAX_HZ : ℝ := 8000
def PLAYBACK_RATE_MIN : ℝ := 0.3
def PLAYBACK_RATE_MAX : ℝ := 2.5

/-- `Math.sqrt(dx*dx + dy*dy) || 0.001`: the Euclidean length of the
pointer-to-entity vector, with the JS falsy-`0` replaced by `0.001`. -/
def distOf (dx dy : ℝ) : ℝ :=
  if Real.sqrt (dx * dx + dy * dy) = 0 then 0.001 else Real.sqrt (dx * dx + dy * dy)

/-- The inverse-power repulsion speed of `main.js` line 131:
`dist < MIN_DISTANCE ? 0 : Math.min(MAX_SPEED, MAX_SPEED * MIN_DISTANCE^SPEED_CURVE / dist^SPEED_CURVE)`. -/
def speedOf (dist : ℝ) : ℝ :=
  if dist < MIN_DISTANCE then 0
  else min MAX_SPEED (MAX_SPEED * MIN_DISTANCE ^ SPEED_CURVE / dist ^ SPEED_CURVE)

/-- `Math.hypot(v.x, v.y)`. -/
def speedMag (v : Vec) : ℝ := Real.sqrt (v.x * v.x + v.y * v.y)

/-- The motion section of `tick` in `src/main.js` (lines 120–143): flee the
pointer when it is present and the arena has nonzero extent, else damp the
velocity by 0.9 and keep the position. -/
def tickMove (rect : Rect) (mouse : Option Vec) (dt : ℝ) (s : State) : State :=
  let minX := PADDING + SPRITE_R
  let minY := PADDING + SPRITE_R
  let maxX := rect.width - PADDING - SPRITE_R
  let maxY := rect.height - PADDING - SPRITE_R
  match mouse with
  | some m =>
    if rect.width ≠ 0 ∧ rect.height ≠ 0 then
      let dx := s.pos.x - m.x
      let dy := s.pos.y - m.y
      let dist := distOf dx dy
      let speed := speedOf dist
      let ux := dx / dist
      let uy := dy / dist
      let newX := s.pos.x + ux * speed * dt
      let newY := s.pos.y + uy * speed * dt
      { pos := ⟨clamp minX maxX newX, clamp minY maxY newY⟩,
        velocity := ⟨(newX - s.pos.x) / dt, (newY - s.pos.y) / dt⟩ }
    else
      { pos := s.pos, velocity := ⟨s.velocity.x * 0.9, s.velocity.y * 0.9⟩ }
  | none =>
      { pos := s.pos, velocity := ⟨s.velocity.x * 0.9, s.velocity.y * 0.9⟩ }

/-- Normalised horizontal position, `main.js` line 157:
`Math.max(0, Math.min(1, rangeX > 0 ? (x - minX) / rangeX : 0))`. -/
def normXOf (minX maxX x : ℝ) : ℝ :=
  clamp 0 1 (if 0 < maxX - minX then (x - minX) / (maxX - minX) else 0)

/-- Normalised upward vertical position, `main.js` line 158:
`Math.max(0, Math.min(1, rangeY > 0 ? 1 - (y - minY) / rangeY : 0))`. -/
def normYUp (minY maxY y : ℝ) : ℝ :=
  clamp 0 1 (if 0 < maxY - minY then 1 - (y - minY) / (maxY - minY) else 0)

/-- Linear tone mapping, `main.js` line 162. -/
def filterFreqOf (n : ℝ) : ℝ := FILTER_MIN_HZ + n * (FILTER_MAX_HZ - FILTER_MIN_HZ)

/-- Linear tempo mapping, `main.js` line 160. -/
def rateOf (n : ℝ) : ℝ := PLAYBACK_RATE_MIN + n * (PLAYBACK_RATE_MAX - PLAYBACK_RATE_MIN)

/-- The audio section of `tick` in `src/main.js` (lines 147–176), for the
configured file-playback strategy (`AUDIO_FILE` is non-empty, so the
`audioElement` branch is the live one).  `isMoving` is
`audioReady && speedMag > MOVING_THRESHOLD`; the gain target is written only
when the backend is ready, and filter/rate targets only while moving. -/
def audioTargets (audioReady : Bool) (rect : Rect) (s : State) : Targets :=
  let minX := PADDING + SPRITE_R
  let minY := PADDING + SPRITE_R
  let maxX := rect.width - PADDING - SPRITE_R
  let maxY := rect.height - PADDING - SPRITE_R
  if audioReady = true ∧ MOVING_THRESHOLD < speedMag s.velocity then
    let normX := normXOf minX maxX s.pos.x
    let normY := normYUp minY maxY s.pos.y
    { gain := some AUDIO_GAIN,
      filterFreq := some (filterFreqOf normX),
      rate := some (clamp 0.25 4 (rateOf normY)) }
  else
    { gain := if audioReady then some 0 else none, filterFreq := none, rate := none }

/-- One whole frame of `tick` in `src/main.js`: motion update, then audio
targets computed from the updated state. -/
def tick (audioReady : Bool) (rect : Rect) (mouse : Option Vec) (dt : ℝ)
    (s : State) : State × Targets :=
  let s' := tickMove rect mouse dt s
  (s', audioTargets audioReady rect s')

/-- One frame's inputs, as supplied by the event shell and the scheduler. -/
structure Frame where
  rect : Rect
  mouse : Option Vec
  dt : ℝ

/-- Iterated motion steps over a list of frames. -/
def runMoves : List Frame → State → State
  | [], s => s
  | f :: fs, s => runMoves fs (tickMove f.rect f.mouse f.dt s)

/- Lazy audio initialisation, `src/main.js` lines 61–88, for the configured
file-playback strategy. -/

/-- The audio graph built by `initAudio`: a gain node feeding the
destination, a lowpass biquad filter feeding the gain node, and a media
element source feeding the filter. -/
structure AudioGraph where
  gainValue : ℝ
  filterFreq : ℝ
  filterQ : ℝ
  mediaConnected : Bool

/-- Audio-backend state: the (initially null) context with its graph, and
the `audioReady` flag. -/
structure AudioSys where
  context : Option AudioGraph
  audioReady : Bool

/-- `initAudio` of `src/main.js`: returns immediately when a context already
exists, otherwise builds the graph once and marks the backend ready. -/
def initAudio (s : AudioSys) : AudioSys :=
  match s.context with
  | some _ => s
  | none =>
      { context := some { gainValue := 0,
                          filterFreq := (FILTER_MIN_HZ + FILTER_MAX_HZ) / 2,
                          filterQ := 0.7,
                          mediaConnected := true },
        audioReady := true }

/-- A motion step with the sprite half-extent and speed cap as parameters:
the shape both variants instantiate, in entity-center coordinates. -/
def tickMoveGen (R MS : ℝ) (rect : Rect) (mouse : Option Vec) (dt : ℝ)
    (s : State) : State :=
  let minX := PADDING + R
  let minY := PADDING + R
  let maxX := rect.width - PADDING - R
  let maxY := rect.height - PADDING - R
  match mouse with
  | some m =>
    if rect.width ≠ 0 ∧ rect.height ≠ 0 then
      let dx := s.pos.x - m.x
      let dy := s.pos.y - m.y
      let dist := distOf dx dy
      let speed := if dist < MIN_DISTANCE then 0
        else min MS (MS * MIN_DISTANCE ^ SPEED_CURVE / dist ^ SPEED_CURVE)
      let ux := dx / dist
      let uy := dy / dist
      let newX := s.pos.x + ux * speed * dt
      let newY := s.pos.y + uy * speed * dt
      { pos := ⟨clamp minX maxX newX, clamp minY maxY newY⟩,
        velocity := ⟨(newX - s.pos.x) / dt, (newY - s.pos.y) / dt⟩ }
    else
      { pos := s.pos, velocity := ⟨s.velocity.x * 0.9, s.velocity.y * 0.9⟩ }
  | none =>
      { pos := s.pos, velocity := ⟨s.velocity.x * 0.9, s.velocity.y * 0.9⟩ }

/-- Conversion from the top-left position convention of the unnamed variant
to entity-center coordinates. -/
def toCenter (R : ℝ) (s : State) : State :=
  { pos := ⟨s.pos.x + R, s.pos.y + R⟩, velocity := s.velocity }

namespace P0

/- Constants of `src/unnamed/part_000`. -/

def PADDING : ℝ := 40
def SPRITE_R : ℝ := 16
def MAX_SPEED : ℝ := 7000
def MIN_DISTANCE : ℝ := 8
def SPEED_CURVE : ℝ := 1
def MOVING_THRESHOLD : ℝ := 5
def AUDIO_GAIN : ℝ := 0.2
def PITCH_CENTS_PER_PX_S : ℝ := -0.8
def PLAYBACK_RATE_PER_PX_S : ℝ := -0.003
def PLAYBACK_RATE_MIN : ℝ := 0.3
def PLAYBACK_RATE_MAX : ℝ := 2.5

/-- The motion section of `tick` in `src/unnamed/part_000` (lines 109–137);
`pos` is the sprite's top-left corner, the flee vector is taken from the
center `pos + SPRITE_R`. -/
def tickMove (rect : Rect) (mouse : Option Vec) (dt : ℝ) (s : State) : State :=
  let minX := PADDING
  let minY := PADDING
  let maxX := rect.width - PADDING - SPRITE_R * 2
  let maxY := rect.height - PADDING - SPRITE_R * 2
  match mouse with
  | some m =>
    if rect.width ≠ 0 ∧ rect.height ≠ 0 then
      let cx := s.pos.x + SPRITE_R
      let cy := s.pos.y + SPRITE_R
      let dx := cx - m.x
      let dy := cy - m.y
      let dist := distOf dx dy
      let speed := if dist < MIN_DISTANCE then 0
        else min MAX_SPEED (MAX_SPEED * MIN_DISTANCE ^ SPEED_CURVE / dist ^ SPEED_CURVE)
      let ux := dx / dist
      let uy := dy / dist
      let newX := s.pos.x + ux * speed * dt
      let newY := s.pos.y + uy * speed * dt
      { pos := ⟨clamp minX maxX newX, clamp minY maxY newY⟩,
        velocity := ⟨(newX - s.pos.x) / dt, (newY - s.pos.y) / dt⟩ }
    else
      { pos := s.pos, velocity := ⟨s.velocity.x * 0.9, s.velocity.y * 0.9⟩ }
  | none =>
      { pos := s.pos, velocity := ⟨s.velocity.x * 0.9, s.velocity.y * 0.9⟩ }

/-- The audio section of `tick` in `src/unnamed/part_000` (lines 141–165),
for the configured file-playback strategy: velocity-driven detune folded
into the playback rate; no tone filter exists in this variant. -/
def audioTargets (audioReady : Bool) (s : State) : Targets :=
  if audioReady = true ∧ MOVING_THRESHOLD < speedMag s.velocity then
    let detuneCents := -s.velocity.x * PITCH_CENTS_PER_PX_S
    let speedFactor := clamp PLAYBACK_RATE_MIN PLAYBACK_RATE_MAX
      (1 + s.velocity.y * PLAYBACK_RATE_PER_PX_S)
    let pitchFactor := (2 : ℝ) ^ (detuneCents / 1200)
    { gain := some AUDIO_GAIN,
      filterFreq := none,
      rate := some (clamp 0.25 4 (speedFactor * pitchFactor)) }
  else
    { gain := if audioReady then some 0 else none, filterFreq := none, rate := none }

end P0

/-! Helper lemmas. -/

theorem le_clamp (lo hi v : ℝ) : lo ≤ clamp lo hi v := le_max_left _ _

theorem clamp_le (lo hi v : ℝ) (h : lo ≤ hi) : clamp lo hi v ≤ hi :=
  max_le h (min_le_left _ _)

theorem clamp_eq_self (lo hi v : ℝ) (h1 : lo ≤ v) (h2 : v ≤ hi) : clamp lo hi v = v := by
  unfold clamp
  rw [min_eq_right h2, max_eq_right h1]

theorem clamp_mono (lo hi : ℝ) {a b : ℝ} (h : a ≤ b) : clamp lo hi a ≤ clamp lo hi b :=
  max_le_max le_rfl (min_le_min le_rfl h)

theorem clamp_add (lo hi v c : ℝ) : clamp lo hi v + c = clamp (lo + c) (hi + c) (v + c) := by
  unfold clamp
  rw [min_add_add_right, max_add_add_right]

theorem distOf_pos (dx dy : ℝ) : 0 < distOf dx dy := by
  unfold distOf
  split_ifs with h
  · norm_num
  · exact lt_of_le_of_ne (Real.sqrt_nonneg _) (Ne.symm h)

theorem distOf_eval (dx dy r : ℝ) (hr : 0 < r) (h : dx * dx + dy * dy = r * r) :
    distOf dx dy = r := by
  unfold distOf
  rw [h, Real.sqrt_mul_self hr.le]
  rw [if_neg (ne_of_gt hr)]

theorem distOf_zero : distOf 0 0 = 0.001 := by
  unfold distOf
  norm_num

theorem speedOf_eq (d : ℝ) :
    speedOf d = if d < MIN_DISTANCE then 0 else min MAX_SPEED (MAX_SPEED * MIN_DISTANCE / d) := by
  unfold speedOf SPEED_CURVE
  simp [Real.rpow_one]

theorem speedOf_nonneg (d : ℝ) (hd : 0 < d) : 0 ≤ speedOf d := by
  rw [speedOf_eq]
  split_ifs with h
  · exact le_rfl
  · refine le_min (by unfold MAX_SPEED; norm_num) ?_
    unfold MAX_SPEED MIN_DISTANCE
    exact div_nonneg (by norm_num) hd.le

theorem speedOf_le_cap (d : ℝ) : speedOf d ≤ MAX_SPEED := by
  rw [speedOf_eq]
  split_ifs with h
  · unfold MAX_SPEED; norm_num
  · exact min_le_left _ _

theorem unitSq_le_one (dx dy : ℝ) :
    dx / distOf dx dy * (dx / distOf dx dy) + dy / distOf dx dy * (dy / distOf dx dy) ≤ 1 := by
  unfold distOf
  split_ifs with h
  · have hS : dx * dx + dy * dy ≤ 0 := Real.sqrt_eq_zero'.mp h
    have hx : dx = 0 := by nlinarith [mul_self_nonneg dx, mul_self_nonneg dy]
    have hy : dy = 0 := by nlinarith [mul_self_nonneg dx, mul_self_nonneg dy]
    rw [hx, hy]
    norm_num
  · have hS : 0 ≤ dx * dx + dy * dy :=
      add_nonneg (mul_self_nonneg dx) (mul_self_nonneg dy)
    have hd : Real.sqrt (dx * dx + dy * dy) * Real.sqrt (dx * dx + dy * dy)
        = dx * dx + dy * dy := Real.mul_self_sqrt hS
    have hne : Real.sqrt (dx * dx + dy * dy) ≠ 0 := h
    have hpos : 0 < dx * dx + dy * dy :=
      lt_of_not_le fun hle => hne (Real.sqrt_eq_zero'.mpr hle)
    have : dx / Real.sqrt (dx * dx + dy * dy) * (dx / Real.sqrt (dx * dx + dy * dy))
        + dy / Real.sqrt (dx * dx + dy * dy) * (dy / Real.sqrt (dx * dx + dy * dy))
        = (dx * dx + dy * dy) / (Real.sqrt (dx * dx + dy * dy)
            * Real.sqrt (dx * dx + dy * dy)) := by
      field_simp
    rw [this, hd, div_self hpos.ne']

theorem speedMag_nonneg (v : Vec) : 0 ≤ speedMag v := Real.sqrt_nonneg _

theorem speedMag_mul_right (x y c : ℝ) (hc : 0 ≤ c) :
    speedMag ⟨x * c, y * c⟩ = c * speedMag ⟨x, y⟩ := by
  unfold speedMag
  have : x * c * (x * c) + y * c * (y * c) = c * c * (x * x + y * y) := by ring
  rw [this, Real.sqrt_mul (mul_self_nonneg c), Real.sqrt_mul_self hc]

theorem speedMag_axisX (a : ℝ) : speedMag ⟨a, 0⟩ = |a| := by
  unfold speedMag
  rw [show a * a + 0 * 0 = a * a by ring, Real.sqrt_mul_self_eq_abs]

theorem speedMag_axisY (a : ℝ) : speedMag ⟨0, a⟩ = |a| := by
  unfold speedMag
  rw [show 0 * 0 + a * a = a * a by ring, Real.sqrt_mul_self_eq_abs]

theorem tickMove_none (rect : Rect) (dt : ℝ) (s : State) :
    tickMove rect none dt s = ⟨s.pos, ⟨s.velocity.x * 0.9, s.velocity.y * 0.9⟩⟩ := rfl

theorem tickMove_vx (rect : Rect) (m : Vec) (dt : ℝ) (s : State)
    (h : rect.width ≠ 0 ∧ rect.height ≠ 0) :
    (tickMove rect (some m) dt s).velocity.x
      = (s.pos.x - m.x) / distOf (s.pos.x - m.x) (s.pos.y - m.y)
          * speedOf (distOf (s.pos.x - m.x) (s.pos.y - m.y)) * dt / dt := by
  simp only [tickMove, if_pos h]
  rw [add_sub_cancel_left]

theorem tickMove_vy (rect : Rect) (m : Vec) (dt : ℝ) (s : State)
    (h : rect.width ≠ 0 ∧ rect.height ≠ 0) :
    (tickMove rect (some m) dt s).velocity.y
      = (s.pos.y - m.y) / distOf (s.pos.x - m.x) (s.pos.y - m.y)
          * speedOf (distOf (s.pos.x - m.x) (s.pos.y - m.y)) * dt / dt := by
  simp only [tickMove, if_pos h]
  rw [add_sub_cancel_left]

theorem tickMove_px (rect : Rect) (m : Vec) (dt : ℝ) (s : State)
    (h : rect.width ≠ 0 ∧ rect.height ≠ 0) :
    (tickMove rect (some m) dt s).pos.x
      = clamp (PADDING + SPRITE_R) (rect.width - PADDING - SPRITE_R)
          (s.pos.x + (s.pos.x - m.x) / distOf (s.pos.x - m.x) (s.pos.y - m.y)
            * speedOf (distOf (s.pos.x - m.x) (s.pos.y - m.y)) * dt) := by
  simp only [tickMove, if_pos h]

theorem tickMove_py (rect : Rect) (m : Vec) (dt : ℝ) (s : State)
    (h : rect.width ≠ 0 ∧ rect.height ≠ 0) :
    (tickMove rect (some m) dt s).pos.y
      = clamp (PADDING + SPRITE_R) (rect.height - PADDING - SPRITE_R)
          (s.pos.y + (s.pos.y - m.y) / distOf (s.pos.x - m.x) (s.pos.y - m.y)
            * speedOf (distOf (s.pos.x - m.x) (s.pos.y - m.y)) * dt) := by
  simp only [tickMove, if_pos h]

theorem speedMag_damp (v : Vec) : speedMag ⟨v.x * 0.9, v.y * 0.9⟩ = 0.9 * speedMag v :=
  speedMag_mul_right v.x v.y 0.9 (by norm_num)

theorem tickMove_mag_le (rect : Rect) (mouse : Option Vec) (dt : ℝ) (s : State)
    (h : speedMag s.velocity ≤ MAX_SPEED) :
    speedMag (tickMove rect mouse dt s).velocity ≤ MAX_SPEED := by
  have damp : speedMag (⟨s.velocity.x * 0.9, s.velocity.y * 0.9⟩ : Vec) ≤ MAX_SPEED := by
    rw [speedMag_damp]
    calc (0.9 : ℝ) * speedMag s.velocity ≤ 1 * speedMag s.velocity :=
          mul_le_mul_of_nonneg_right (by norm_num) (speedMag_nonneg _)
      _ = speedMag s.velocity := one_mul _
      _ ≤ MAX_SPEED := h
  cases mouse with
  | none => exact damp
  | some m =>
    by_cases hc : rect.width ≠ 0 ∧ rect.height ≠ 0
    · have hvx := tickMove_vx rect m dt s hc
      have hvy := tickMove_vy rect m dt s hc
      have hvel : (tickMove rect (some m) dt s).velocity
          = ⟨(tickMove rect (some m) dt s).velocity.x,
             (tickMove rect (some m) dt s).velocity.y⟩ := rfl
      rw [hvel, hvx, hvy]
      by_cases hdt : dt = 0
      · subst hdt
        simp only [mul_zero, zero_div]
        unfold speedMag
        rw [show (0 : ℝ) * 0 + 0 * 0 = 0 by ring, Real.sqrt_zero]
        unfold MAX_SPEED
        norm_num
      · rw [mul_div_assoc, div_self hdt, mul_one, mul_div_assoc, div_self hdt, mul_one]
        set dx := s.pos.x - m.x
        set dy := s.pos.y - m.y
        have hs0 : 0 ≤ speedOf (distOf dx dy) := speedOf_nonneg _ (distOf_pos dx dy)
        rw [speedMag_mul_right _ _ _ hs0]
        have hq : speedMag ⟨dx / distOf dx dy, dy / distOf dx dy⟩ ≤ 1 := by
          unfold speedMag
          calc Real.sqrt (dx / distOf dx dy * (dx / distOf dx dy)
                + dy / distOf dx dy * (dy / distOf dx dy))
              ≤ Real.sqrt 1 := Real.sqrt_le_sqrt (unitSq_le_one dx dy)
            _ = 1 := Real.sqrt_one
        calc speedOf (distOf dx dy) * speedMag ⟨dx / distOf dx dy, dy / distOf dx dy⟩
            ≤ speedOf (distOf dx dy) * 1 := mul_le_mul_of_nonneg_left hq hs0
          _ = speedOf (distOf dx dy) := mul_one _
          _ ≤ MAX_SPEED := speedOf_le_cap _
    · simp only [tickMove, if_neg hc]
      exact damp

theorem runMoves_mag_le (fs : List Frame) :
    ∀ s : State, speedMag s.velocity ≤ MAX_SPEED →
      speedMag (runMoves fs s).velocity ≤ MAX_SPEED := by
  induction fs with
  | nil => intro s h; exact h
  | cons f fs ih =>
    intro s h
    exact ih _ (tickMove_mag_le f.rect f.mouse f.dt s h)

/-- Claim C6: over any run of pointer-absent frames the position is
unchanged and both velocity components (hence the velocity magnitude) are
multiplied by the damping factor 0.9 once per step. -/
theorem c6_absent_decay (fs : List Frame) (s : State) (h : ∀ f ∈ fs, f.mouse = none) :
    (runMoves fs s).pos.x = s.pos.x ∧ (runMoves fs s).pos.y = s.pos.y ∧
    (runMoves fs s).velocity.x = 0.9 ^ fs.length * s.velocity.x ∧
    (runMoves fs s).velocity.y = 0.9 ^ fs.length * s.velocity.y ∧
    speedMag (runMoves fs s).velocity = 0.9 ^ fs.length * speedMag s.velocity := by
  induction fs generalizing s with
  | nil => simp [runMoves]
  | cons f fs ih =>
    have hf : f.mouse = none := h f (List.mem_cons_self f fs)
    have hrest : ∀ g ∈ fs, g.mouse = none := fun g hg => h g (List.mem_cons_of_mem f hg)
    have step : tickMove f.rect f.mouse f.dt s
        = ⟨s.pos, ⟨s.velocity.x * 0.9, s.velocity.y * 0.9⟩⟩ := by
      rw [hf]; rfl
    obtain ⟨h1, h2, h3, h4, h5⟩ :=
      ih (⟨s.pos, ⟨s.velocity.x * 0.9, s.velocity.y * 0.9⟩⟩ : State) hrest
    refine ⟨?_, ?_, ?_, ?_, ?_⟩
    · show (runMoves fs (tickMove f.rect f.mouse f.dt s)).pos.x = s.pos.x
      rw [step]; exact h1
    · show (runMoves fs (tickMove f.rect f.mouse f.dt s)).pos.y = s.pos.y
      rw [step]; exact h2
    · show (runMoves fs (tickMove f.rect f.mouse f.dt s)).velocity.x
        = 0.9 ^ (f :: fs).length * s.velocity.x
      rw [step, h3, List.length_cons, pow_succ]
      ring
    · show (runMoves fs (tickMove f.rect f.mouse f.dt s)).velocity.y
        = 0.9 ^ (f :: fs).length * s.velocity.y
      rw [step, h4, List.length_cons, pow_succ]
      ring
    · show speedMag (runMoves fs (tickMove f.rect f.mouse f.dt s)).velocity
        = 0.9 ^ (f :: fs).length * speedMag s.velocity
      rw [step, h5, show (⟨s.pos, ⟨s.velocity.x * 0.9, s.velocity.y * 0.9⟩⟩ : State).velocity
          = ⟨s.velocity.x * 0.9, s.velocity.y * 0.9⟩ from rfl,
        speedMag_damp, List.length_cons, pow_succ]
      ring

/-- Claim C6 witness: two pointer-absent frames leave the position at
(400, 300) and scale the velocity (8, 6) by 0.9 per step. -/
theorem c6_absent_decay_witness :
    (runMoves [⟨⟨800, 600⟩, none, 1/60⟩, ⟨⟨1024, 768⟩, none, 1/30⟩]
        ⟨⟨400, 300⟩, ⟨8, 6⟩⟩).pos.x = 400 ∧
    (runMoves [⟨⟨800, 600⟩, none, 1/60⟩, ⟨⟨1024, 768⟩, none, 1/30⟩]
        ⟨⟨400, 300⟩, ⟨8, 6⟩⟩).pos.y = 300 ∧
    (runMoves [⟨⟨800, 600⟩, none, 1/60⟩, ⟨⟨1024, 768⟩, none, 1/30⟩]
        ⟨⟨400, 300⟩, ⟨8, 6⟩⟩).velocity.x = 0.9 ^ 2 * 8 ∧
    (runMoves [⟨⟨800, 600⟩, none, 1/60⟩, ⟨⟨1024, 768⟩, none, 1/30⟩]
        ⟨⟨400, 300⟩, ⟨8, 6⟩⟩).velocity.y = 0.9 ^ 2 * 6 ∧
    speedMag (runMoves [⟨⟨800, 600⟩, none, 1/60⟩, ⟨⟨1024, 768⟩, none, 1/30⟩]
        ⟨⟨400, 300⟩, ⟨8, 6⟩⟩).velocity = 0.9 ^ 2 * speedMag ⟨8, 6⟩ :=
  c6_absent_decay [⟨⟨800, 600⟩, none, 1/60⟩, ⟨⟨1024, 768⟩, none, 1/30⟩]
    ⟨⟨400, 300⟩, ⟨8, 6⟩⟩ (by simp [List.forall_mem_cons])

theorem audioTargets_moving (ready : Bool) (rect : Rect) (s : State)
    (h : ready = true ∧ MOVING_THRESHOLD < speedMag s.velocity) :
    audioTargets ready rect s =
      { gain := some AUDIO_GAIN,
        filterFreq := some (filterFreqOf (normXOf (PADDING + SPRITE_R)
          (rect.width - PADDING - SPRITE_R) s.pos.x)),
        rate := some (clamp 0.25 4 (rateOf (normYUp (PADDING + SPRITE_R)
          (rect.height - PADDING - SPRITE_R) s.pos.y))) } := by
  simp only [audioTargets, if_pos h]

theorem audioTargets_still (ready : Bool) (rect : Rect) (s : State)
    (h : ¬(ready = true ∧ MOVING_THRESHOLD < speedMag s.velocity)) :
    audioTargets ready rect s =
      { gain := if ready then some 0 else none, filterFreq := none, rate := none } := by
  simp only [audioTargets, if_neg h]

theorem audioTargetsP0_moving (ready : Bool) (s : State)
    (h : ready = true ∧ P0.MOVING_THRESHOLD < speedMag s.velocity) :
    P0.audioTargets ready s =
      { gain := some P0.AUDIO_GAIN,
        filterFreq := none,
        rate := some (clamp 0.25 4
          (clamp P0.PLAYBACK_RATE_MIN P0.PLAYBACK_RATE_MAX
              (1 + s.velocity.y * P0.PLAYBACK_RATE_PER_PX_S)
            * (2 : ℝ) ^ (-s.velocity.x * P0.PITCH_CENTS_PER_PX_S / 1200))) } := by
  simp only [P0.audioTargets, if_pos h]

theorem mainRate_eval100 :
    (audioTargets true ⟨800, 600⟩ ⟨⟨400, 300⟩, ⟨0, 100⟩⟩).rate = some (7/5 : ℝ) := by
  have hmov : (true = true) ∧
      MOVING_THRESHOLD < speedMag (⟨⟨400, 300⟩, ⟨0, 100⟩⟩ : State).velocity := by
    refine ⟨rfl, ?_⟩
    rw [show (⟨⟨400, 300⟩, ⟨0, 100⟩⟩ : State).velocity = ⟨0, 100⟩ from rfl, speedMag_axisY]
    unfold MOVING_THRESHOLD
    norm_num
  rw [audioTargets_moving _ _ _ hmov]
  norm_num [normYUp, rateOf, clamp, PADDING, SPRITE_R,
    PLAYBACK_RATE_MIN, PLAYBACK_RATE_MAX, max_def, min_def]

theorem mainRate_eval200 :
    (audioTargets true ⟨800, 600⟩ ⟨⟨400, 300⟩, ⟨0, 200⟩⟩).rate = some (7/5 : ℝ) := by
  have hmov : (true = true) ∧
      MOVING_THRESHOLD < speedMag (⟨⟨400, 300⟩, ⟨0, 200⟩⟩ : State).velocity := by
    refine ⟨rfl, ?_⟩
    rw [show (⟨⟨400, 300⟩, ⟨0, 200⟩⟩ : State).velocity = ⟨0, 200⟩ from rfl, speedMag_axisY]
    unfold MOVING_THRESHOLD
    norm_num
  rw [audioTargets_moving _ _ _ hmov]
  norm_num [normYUp, rateOf, clamp, PADDING, SPRITE_R,
    PLAYBACK_RATE_MIN, PLAYBACK_RATE_MAX, max_def, min_def]

theorem p0Rate_eval100 :
    (P0.audioTargets true ⟨⟨384, 284⟩, ⟨0, 100⟩⟩).rate = some (7/10 : ℝ) := by
  have hmov : (true = true) ∧
      P0.MOVING_THRESHOLD < speedMag (⟨⟨384, 284⟩, ⟨0, 100⟩⟩ : State).velocity := by
    refine ⟨rfl, ?_⟩
    rw [show (⟨⟨384, 284⟩, ⟨0, 100⟩⟩ : State).velocity = ⟨0, 100⟩ from rfl, speedMag_axisY]
    unfold P0.MOVING_THRESHOLD
    norm_num
  rw [audioTargetsP0_moving _ _ hmov]
  norm_num [clamp, P0.PLAYBACK_RATE_MIN, P0.PLAYBACK_RATE_MAX,
    P0.PLAYBACK_RATE_PER_PX_S, P0.PITCH_CENTS_PER_PX_S, Real.rpow_zero,
    max_def, min_def]

theorem p0Rate_eval200 :
    (P0.audioTargets true ⟨⟨384, 284⟩, ⟨0, 200⟩⟩).rate = some (2/5 : ℝ) := by
  have hmov : (true = true) ∧
      P0.MOVING_THRESHOLD < speedMag (⟨⟨384, 284⟩, ⟨0, 200⟩⟩ : State).velocity := by
    refine ⟨rfl, ?_⟩
    rw [show (⟨⟨384, 284⟩, ⟨0, 200⟩⟩ : State).velocity = ⟨0, 200⟩ from rfl, speedMag_axisY]
    unfold P0.MOVING_THRESHOLD
    norm_num
  rw [audioTargetsP0_moving _ _ hmov]
  norm_num [clamp, P0.PLAYBACK_RATE_MIN, P0.PLAYBACK_RATE_MAX,
    P0.PLAYBACK_RATE_PER_PX_S, P0.PITCH_CENTS_PER_PX_S, Real.rpow_zero,
    max_def, min_def]

/-- Claim C3 (amended): on every frame the gain target is AUDIO_GAIN exactly
when the audio backend is ready and the post-step velocity magnitude exceeds
MOVING_THRESHOLD, it is 0 exactly when the backend is ready and the
magnitude does not exceed it, and no gain target is written when the backend
is not ready. -/
theorem c3_gain_gate (audioReady : Bool) (rect : Rect) (mouse : Option Vec)
    (dt : ℝ) (s : State) :
    ((tick audioReady rect mouse dt s).2.gain = some AUDIO_GAIN ↔
      audioReady = true ∧
        MOVING_THRESHOLD < speedMag (tick audioReady rect mouse dt s).1.velocity) ∧
    ((tick audioReady rect mouse dt s).2.gain = some 0 ↔
      audioReady = true ∧
        speedMag (tick audioReady rect mouse dt s).1.velocity ≤ MOVING_THRESHOLD) ∧
    (audioReady = false → (tick audioReady rect mouse dt s).2.gain = none) := by
  have ht : tick audioReady rect mouse dt s
      = (tickMove rect mouse dt s, audioTargets audioReady rect (tickMove rect mouse dt s)) :=
    rfl
  rw [ht]
  by_cases h : audioReady = true ∧
      MOVING_THRESHOLD < speedMag (tickMove rect mouse dt s).velocity
  · rw [audioTargets_moving _ _ _ h]
    refine ⟨iff_of_true rfl h, iff_of_false ?_ ?_, ?_⟩
    · intro heq
      have : AUDIO_GAIN = (0 : ℝ) := Option.some.inj heq
      unfold AUDIO_GAIN at this
      norm_num at this
    · rintro ⟨-, hle⟩
      exact absurd h.2 (not_lt.mpr hle)
    · intro hfalse
      rw [hfalse] at h
      exact absurd h.1 (by norm_num)
  · rw [audioTargets_still _ _ _ h]
    cases audioReady with
    | true =>
      have hle : speedMag (tickMove rect mouse dt s).velocity ≤ MOVING_THRESHOLD :=
        not_lt.mp fun hlt => h ⟨rfl, hlt⟩
      refine ⟨iff_of_false ?_ ?_, iff_of_true (by norm_num) ⟨rfl, hle⟩, ?_⟩
      · intro heq
        have : (0 : ℝ) = AUDIO_GAIN := Option.some.inj (by simpa using heq)
        unfold AUDIO_GAIN at this
        norm_num at this
      · rintro ⟨-, hlt⟩
        exact h ⟨rfl, hlt⟩
      · intro hfalse
        exact absurd hfalse (by norm_num)
    | false =>
      refine ⟨iff_of_false (by simp) ?_, iff_of_false (by simp) ?_, fun _ => by simp⟩
      · rintro ⟨hfalse, -⟩
        exact absurd hfalse (by norm_num)
      · rintro ⟨hfalse, -⟩
        exact absurd hfalse (by norm_num)

/-- Claim C3 witness: with the backend not ready, a concrete frame writes no
gain target. -/
theorem c3_gain_gate_witness :
    (tick false ⟨800, 600⟩ none (1/60) ⟨⟨400, 300⟩, ⟨2, 1⟩⟩).2.gain = none :=
  (c3_gain_gate false ⟨800, 600⟩ none (1/60) ⟨⟨400, 300⟩, ⟨2, 1⟩⟩).2.2 rfl

/-- Claim C3 counterexample: a frame whose post-step velocity magnitude (90)
exceeds MOVING_THRESHOLD while the backend is not ready, so the gain target
is not AUDIO_GAIN (none is written), refuting the unconditional biconditional. -/
theorem c3_gain_counterexample :
    MOVING_THRESHOLD
        < speedMag (tick false ⟨800, 600⟩ none 1 ⟨⟨400, 300⟩, ⟨100, 0⟩⟩).1.velocity ∧
    (tick false ⟨800, 600⟩ none 1 ⟨⟨400, 300⟩, ⟨100, 0⟩⟩).2.gain ≠ some AUDIO_GAIN := by
  constructor
  · rw [show (tick false ⟨800, 600⟩ none 1 ⟨⟨400, 300⟩, ⟨100, 0⟩⟩).1.velocity
        = ⟨100 * 0.9, 0 * 0.9⟩ from rfl]
    rw [show (⟨100 * 0.9, 0 * 0.9⟩ : Vec) = ⟨(90 : ℝ), 0⟩ by norm_num, speedMag_axisX]
    unfold MOVING_THRESHOLD
    norm_num
  · rw [show (tick false ⟨800, 600⟩ none 1 ⟨⟨400, 300⟩, ⟨100, 0⟩⟩).2
        = audioTargets false ⟨800, 600⟩
            (tickMove ⟨800, 600⟩ none 1 ⟨⟨400, 300⟩, ⟨100, 0⟩⟩) from rfl]
    rw [audioTargets_still _ _ _ (by norm_num)]
    simp

/-- Claim C7: the tone mapping is strictly increasing in the normalised
horizontal coordinate, the tempo mapping is strictly increasing in the
normalised upward coordinate and non-increasing in raw y (which grows
downward), and every playback-rate target a frame emits lies in the absolute
safety range [0.25, 4]. -/
theorem c7_mappings_monotone :
    (∀ n m : ℝ, n < m → filterFreqOf n < filterFreqOf m) ∧
    (∀ n m : ℝ, n < m → rateOf n < rateOf m) ∧
    (∀ minY maxY y y' : ℝ, y ≤ y' →
      rateOf (normYUp minY maxY y') ≤ rateOf (normYUp minY maxY y)) ∧
    (∀ (audioReady : Bool) (rect : Rect) (s : State) (r : ℝ),
      (audioTargets audioReady rect s).rate = some r → 0.25 ≤ r ∧ r ≤ 4) := by
  have rate_mono : ∀ n m : ℝ, n ≤ m → rateOf n ≤ rateOf m := by
    intro n m h
    unfold rateOf PLAYBACK_RATE_MIN PLAYBACK_RATE_MAX
    nlinarith
  refine ⟨?_, ?_, ?_, ?_⟩
  · intro n m h
    unfold filterFreqOf FILTER_MIN_HZ FILTER_MAX_HZ
    nlinarith
  · intro n m h
    unfold rateOf PLAYBACK_RATE_MIN PLAYBACK_RATE_MAX
    nlinarith
  · intro minY maxY y y' h
    apply rate_mono
    unfold normYUp
    by_cases hr : 0 < maxY - minY
    · rw [if_pos hr, if_pos hr]
      apply clamp_mono
      have hdiv : (y - minY) / (maxY - minY) ≤ (y' - minY) / (maxY - minY) :=
        (div_le_div_iff_of_pos_right hr).mpr (by linarith)
      linarith
    · rw [if_neg hr, if_neg hr]
  · intro ready rect s r hr
    by_cases h : ready = true ∧ MOVING_THRESHOLD < speedMag s.velocity
    · rw [audioTargets_moving _ _ _ h] at hr
      have : clamp 0.25 4 (rateOf (normYUp (PADDING + SPRITE_R)
          (rect.height - PADDING - SPRITE_R) s.pos.y)) = r := Option.some.inj hr
      rw [← this]
      exact ⟨le_clamp _ _ _, clamp_le _ _ _ (by norm_num)⟩
    · rw [audioTargets_still _ _ _ h] at hr
      by_cases hready : ready = true
      · rw [hready] at hr
        simp at hr
      · simp only [Bool.not_eq_true] at hready
        rw [hready] at hr
        simp at hr

/-- Claim C7 witness: concrete instances — tone and tempo mappings at
normalised coordinates 0 < 1, raw-y antitonicity at y = 200 ≤ 300 within
bounds 100..500, and a concretely emitted playback rate 7/5 within
[0.25, 4]. -/
theorem c7_mappings_monotone_witness :
    filterFreqOf 0 < filterFreqOf 1 ∧ rateOf 0 < rateOf 1 ∧
    rateOf (normYUp 100 500 300) ≤ rateOf (normYUp 100 500 200) ∧
    ((0.25 : ℝ) ≤ 7/5 ∧ (7/5 : ℝ) ≤ 4) :=
  ⟨c7_mappings_monotone.1 0 1 (by norm_num),
    c7_mappings_monotone.2.1 0 1 (by norm_num),
    c7_mappings_monotone.2.2.1 100 500 200 300 (by norm_num),
    c7_mappings_monotone.2.2.2 true ⟨800, 600⟩ ⟨⟨400, 300⟩, ⟨0, 100⟩⟩ (7/5)
      mainRate_eval100⟩

/-- Claim C8 (amended, positive half): the motion steps of the two variants
are a single parameterised step differing only in the sprite half-extent and
speed-cap constants — `main.js` instantiates it directly, and the unnamed
variant instantiates it up to the top-left/center coordinate translation. -/
theorem c8_motion_unified :
    (∀ (rect : Rect) (mouse : Option Vec) (dt : ℝ) (s : State),
      tickMove rect mouse dt s = tickMoveGen SPRITE_R MAX_SPEED rect mouse dt s) ∧
    (∀ (rect : Rect) (mouse : Option Vec) (dt : ℝ) (s : State),
      toCenter P0.SPRITE_R (P0.tickMove rect mouse dt s)
        = tickMoveGen P0.SPRITE_R P0.MAX_SPEED rect mouse dt (toCenter P0.SPRITE_R s)) := by
  constructor
  · intro rect mouse dt s
    rfl
  · intro rect mouse dt s
    cases mouse with
    | none => rfl
    | some m =>
      by_cases hc : rect.width ≠ 0 ∧ rect.height ≠ 0
      · simp only [P0.tickMove, tickMoveGen, toCenter, if_pos hc,
          P0.PADDING, P0.SPRITE_R, P0.MIN_DISTANCE, P0.SPEED_CURVE,
          PADDING, MIN_DISTANCE, SPEED_CURVE, State.mk.injEq, Vec.mk.injEq]
        refine ⟨⟨?_, ?_⟩, ?_, ?_⟩
        · rw [clamp_add]
          congr 1 <;> ring
        · rw [clamp_add]
          congr 1 <;> ring
        · rw [add_sub_cancel_left, add_sub_cancel_left]
        · rw [add_sub_cancel_left, add_sub_cancel_left]
      · simp only [P0.tickMove, tickMoveGen, toCenter, if_neg hc]

/-- Claim C8 counterexample: the audio mappings of the two variants are not
equivalent beyond constants — at the same center position with two different
velocities, `main.js` emits the same playback rate both times (its mapping
reads position only) while the unnamed variant emits two different rates
(its mapping reads velocity). -/
theorem c8_mapping_counterexample :
    (audioTargets true ⟨800, 600⟩ ⟨⟨400, 300⟩, ⟨0, 100⟩⟩).rate
        = (audioTargets true ⟨800, 600⟩ ⟨⟨400, 300⟩, ⟨0, 200⟩⟩).rate ∧
    (P0.audioTargets true ⟨⟨384, 284⟩, ⟨0, 100⟩⟩).rate
        ≠ (P0.audioTargets true ⟨⟨384, 284⟩, ⟨0, 200⟩⟩).rate := by
  constructor
  · rw [mainRate_eval100, mainRate_eval200]
  · rw [p0Rate_eval100, p0Rate_eval200]
    norm_num

/-- Claim C5: on a pointer-present step the stored velocity is the pre-clamp
displacement rate — direction times computed speed, independent of the
position clamp — and in the wall scenario (pointer at (780, 300), entity at
the left bound) the position stays pinned at the wall while the velocity is
nonzero. -/
theorem c5_velocity_preclamp :
    (∀ (rect : Rect) (m : Vec) (dt : ℝ) (s : State),
      rect.width ≠ 0 → rect.height ≠ 0 → dt ≠ 0 →
      (tickMove rect (some m) dt s).velocity.x
          = (s.pos.x - m.x) / distOf (s.pos.x - m.x) (s.pos.y - m.y)
            * speedOf (distOf (s.pos.x - m.x) (s.pos.y - m.y)) ∧
      (tickMove rect (some m) dt s).velocity.y
          = (s.pos.y - m.y) / distOf (s.pos.x - m.x) (s.pos.y - m.y)
            * speedOf (distOf (s.pos.x - m.x) (s.pos.y - m.y))) ∧
    ((tickMove ⟨800, 600⟩ (some ⟨780, 300⟩) (1/10) ⟨⟨100, 300⟩, ⟨0, 0⟩⟩).pos.x = 100 ∧
      (tickMove ⟨800, 600⟩ (some ⟨780, 300⟩) (1/10) ⟨⟨100, 300⟩, ⟨0, 0⟩⟩).pos.y = 300 ∧
      (tickMove ⟨800, 600⟩ (some ⟨780, 300⟩) (1/10) ⟨⟨100, 300⟩, ⟨0, 0⟩⟩).velocity.x ≠ 0) := by
  have h462 : Real.sqrt 462400 = 680 := by
    rw [show (462400 : ℝ) = 680 * 680 by norm_num, Real.sqrt_mul_self (by norm_num)]
  constructor
  · intro rect m dt s hw hh hdt
    constructor
    · rw [tickMove_vx rect m dt s ⟨hw, hh⟩, mul_div_assoc, div_self hdt, mul_one]
    · rw [tickMove_vy rect m dt s ⟨hw, hh⟩, mul_div_assoc, div_self hdt, mul_one]
  · refine ⟨?_, ?_, ?_⟩
    · rw [tickMove_px _ _ _ _ (by norm_num)]
      norm_num [distOf, speedOf_eq, clamp, PADDING, SPRITE_R, MAX_SPEED, MIN_DISTANCE,
        h462, max_def, min_def]
    · rw [tickMove_py _ _ _ _ (by norm_num)]
      norm_num [distOf, speedOf_eq, clamp, PADDING, SPRITE_R, MAX_SPEED, MIN_DISTANCE,
        h462, max_def, min_def]
    · rw [tickMove_vx _ _ _ _ (by norm_num)]
      norm_num [distOf, speedOf_eq, MAX_SPEED, MIN_DISTANCE, h462, min_def]

/-- Claim C5 witness: a concrete pointer-present frame with dt = 1 whose
stored velocity equals direction times computed speed. -/
theorem c5_velocity_preclamp_witness :
    (tickMove ⟨800, 600⟩ (some ⟨300, 300⟩) 1 ⟨⟨400, 300⟩, ⟨0, 0⟩⟩).velocity.x
        = ((400 : ℝ) - 300) / distOf (400 - 300) (300 - 300)
          * speedOf (distOf (400 - 300) (300 - 300)) ∧
    (tickMove ⟨800, 600⟩ (some ⟨300, 300⟩) 1 ⟨⟨400, 300⟩, ⟨0, 0⟩⟩).velocity.y
        = ((300 : ℝ) - 300) / distOf (400 - 300) (300 - 300)
          * speedOf (distOf (400 - 300) (300 - 300)) :=
  c5_velocity_preclamp.1 ⟨800, 600⟩ ⟨300, 300⟩ 1 ⟨⟨400, 300⟩, ⟨0, 0⟩⟩
    (by norm_num) (by norm_num) (by norm_num)

/-- Claim C2 (amended): when the pointer sits exactly at the entity center
the distance is substituted with the epsilon 0.001, which lies below
MIN_DISTANCE, so the computed speed is exactly 0 and the entity does not
move: position unchanged, velocity zero. -/
theorem c2_center_zero_speed :
    distOf 0 0 = 0.001 ∧ speedOf (distOf 0 0) = 0 ∧
    (∀ (rect : Rect) (dt : ℝ) (s : State),
      rect.width ≠ 0 → rect.height ≠ 0 →
      PADDING + SPRITE_R ≤ s.pos.x → s.pos.x ≤ rect.width - PADDING - SPRITE_R →
      PADDING + SPRITE_R ≤ s.pos.y → s.pos.y ≤ rect.height - PADDING - SPRITE_R →
      (tickMove rect (some s.pos) dt s).pos.x = s.pos.x ∧
      (tickMove rect (some s.pos) dt s).pos.y = s.pos.y ∧
      (tickMove rect (some s.pos) dt s).velocity.x = 0 ∧
      (tickMove rect (some s.pos) dt s).velocity.y = 0) := by
  refine ⟨distOf_zero, ?_, ?_⟩
  · rw [distOf_zero, speedOf_eq, if_pos (by unfold MIN_DISTANCE; norm_num)]
  · intro rect dt s hw hh hx1 hx2 hy1 hy2
    refine ⟨?_, ?_, ?_, ?_⟩
    · rw [tickMove_px _ _ _ _ ⟨hw, hh⟩]
      simp only [sub_self, zero_div, zero_mul, add_zero]
      exact clamp_eq_self _ _ _ hx1 hx2
    · rw [tickMove_py _ _ _ _ ⟨hw, hh⟩]
      simp only [sub_self, zero_div, zero_mul, add_zero]
      exact clamp_eq_self _ _ _ hy1 hy2
    · rw [tickMove_vx _ _ _ _ ⟨hw, hh⟩]
      simp only [sub_self, zero_div, zero_mul]
    · rw [tickMove_vy _ _ _ _ ⟨hw, hh⟩]
      simp only [sub_self, zero_div, zero_mul]

/-- Claim C2 witness: a concrete frame with the pointer at the entity center
(200, 200) leaves the position unchanged with zero velocity. -/
theorem c2_center_zero_speed_witness :
    (tickMove ⟨800, 600⟩ (some ⟨200, 200⟩) (1/50) ⟨⟨200, 200⟩, ⟨3, 4⟩⟩).pos.x = 200 ∧
    (tickMove ⟨800, 600⟩ (some ⟨200, 200⟩) (1/50) ⟨⟨200, 200⟩, ⟨3, 4⟩⟩).pos.y = 200 ∧
    (tickMove ⟨800, 600⟩ (some ⟨200, 200⟩) (1/50) ⟨⟨200, 200⟩, ⟨3, 4⟩⟩).velocity.x = 0 ∧
    (tickMove ⟨800, 600⟩ (some ⟨200, 200⟩) (1/50) ⟨⟨200, 200⟩, ⟨3, 4⟩⟩).velocity.y = 0 :=
  c2_center_zero_speed.2.2 ⟨800, 600⟩ (1/50) ⟨⟨200, 200⟩, ⟨3, 4⟩⟩
    (by norm_num) (by norm_num)
    (by unfold PADDING SPRITE_R; norm_num) (by unfold PADDING SPRITE_R; norm_num)
    (by unfold PADDING SPRITE_R; norm_num) (by unfold PADDING SPRITE_R; norm_num)

/-- Claim C2 counterexample: with the pointer exactly at the entity center
the computed speed is 0, not MAX_SPEED, and the entity stays still instead
of moving maximally. -/
theorem c2_center_counterexample :
    speedOf (distOf 0 0) = 0 ∧ speedOf (distOf 0 0) ≠ MAX_SPEED ∧
    (tickMove ⟨800, 600⟩ (some ⟨400, 300⟩) (1/60) ⟨⟨400, 300⟩, ⟨0, 0⟩⟩).pos.x = 400 ∧
    (tickMove ⟨800, 600⟩ (some ⟨400, 300⟩) (1/60) ⟨⟨400, 300⟩, ⟨0, 0⟩⟩).pos.y = 300 ∧
    (tickMove ⟨800, 600⟩ (some ⟨400, 300⟩) (1/60) ⟨⟨400, 300⟩, ⟨0, 0⟩⟩).velocity.x = 0 ∧
    (tickMove ⟨800, 600⟩ (some ⟨400, 300⟩) (1/60) ⟨⟨400, 300⟩, ⟨0, 0⟩⟩).velocity.y = 0 := by
  have hsp : speedOf (distOf 0 0) = 0 := by
    rw [distOf_zero, speedOf_eq, if_pos (by unfold MIN_DISTANCE; norm_num)]
  refine ⟨hsp, by rw [hsp]; unfold MAX_SPEED; norm_num, ?_, ?_, ?_, ?_⟩
  · rw [tickMove_px _ _ _ _ (by norm_num)]
    norm_num [distOf, speedOf_eq, clamp, PADDING, SPRITE_R, MIN_DISTANCE, max_def, min_def]
  · rw [tickMove_py _ _ _ _ (by norm_num)]
    norm_num [distOf, speedOf_eq, clamp, PADDING, SPRITE_R, MIN_DISTANCE, max_def, min_def]
  · rw [tickMove_vx _ _ _ _ (by norm_num)]
    norm_num
  · rw [tickMove_vy _ _ _ _ (by norm_num)]
    norm_num

/-- Claim C10: starting from zero velocity, no sequence of frames can make
the velocity magnitude exceed MAX_SPEED — a pointer-present step caps the
magnitude at the computed speed (at most MAX_SPEED) and a pointer-absent
step only shrinks it. -/
theorem c10_velocity_bounded (fs : List Frame) (s : State)
    (h0x : s.velocity.x = 0) (h0y : s.velocity.y = 0) :
    speedMag (runMoves fs s).velocity ≤ MAX_SPEED := by
  have hmag : speedMag s.velocity ≤ MAX_SPEED := by
    have hv : s.velocity = ⟨0, 0⟩ := by
      ext
      · exact h0x
      · exact h0y
    rw [hv]
    unfold speedMag
    rw [show (0 : ℝ) * 0 + 0 * 0 = 0 by ring, Real.sqrt_zero]
    unfold MAX_SPEED
    norm_num
  exact runMoves_mag_le fs s hmag

/-- Claim C10 witness: one pointer-present frame from the center with zero
initial velocity keeps the velocity magnitude at most MAX_SPEED. -/
theorem c10_velocity_bounded_witness :
    speedMag (runMoves [⟨⟨800, 600⟩, some ⟨780, 300⟩, 1/60⟩]
        ⟨⟨400, 300⟩, ⟨0, 0⟩⟩).velocity ≤ MAX_SPEED :=
  c10_velocity_bounded [⟨⟨800, 600⟩, some ⟨780, 300⟩, 1/60⟩]
    ⟨⟨400, 300⟩, ⟨0, 0⟩⟩ rfl rfl

/-! Claim theorems. -/

/-- Claim C9: the backend-start operation `initAudio` is idempotent — a second
invocation returns the state of the first unchanged, building no second
audio graph. -/
theorem c9_initAudio_idempotent (s : AudioSys) :
    initAudio (initAudio s) = initAudio s := by
  rcases s with ⟨c, r⟩
  cases c <;> rfl

/-- Claim C4: for distances at least MIN_DISTANCE the computed speed is
monotonically non-increasing in the distance and capped at MAX_SPEED; for
distances below MIN_DISTANCE it is exactly 0. -/
theorem c4_speed_curve :
    (∀ d d' : ℝ, MIN_DISTANCE ≤ d → d ≤ d' → speedOf d' ≤ speedOf d) ∧
    (∀ d : ℝ, speedOf d ≤ MAX_SPEED) ∧
    (∀ d : ℝ, d < MIN_DISTANCE → speedOf d = 0) := by
  refine ⟨fun d d' hd hdd' => ?_, speedOf_le_cap, fun d hd => ?_⟩
  · have hd8 : (8 : ℝ) ≤ d := by unfold MIN_DISTANCE at hd; exact_mod_cast hd
    have hd'8 : (8 : ℝ) ≤ d' := le_trans hd8 hdd'
    have hdpos : (0 : ℝ) < d := lt_of_lt_of_le (by norm_num) hd8
    rw [speedOf_eq, speedOf_eq, if_neg (not_lt.mpr (le_trans hd hdd')), if_neg (not_lt.mpr hd)]
    refine min_le_min le_rfl ?_
    unfold MAX_SPEED MIN_DISTANCE
    gcongr
  · rw [speedOf_eq, if_pos hd]

/-- Claim C4 witness: concrete instances of the three conjuncts. -/
theorem c4_speed_curve_witness :
    speedOf 16 ≤ speedOf 8 ∧ speedOf 100 ≤ MAX_SPEED ∧ speedOf 0.001 = 0 :=
  ⟨c4_speed_curve.1 8 16 (by unfold MIN_DISTANCE; norm_num) (by norm_num),
    c4_speed_curve.2.1 100,
    c4_speed_curve.2.2 0.001 (by unfold MIN_DISTANCE; norm_num)⟩

/-- Claim C1: a step keeps the entity inside the movable sub-rectangle
`[margin, extent - margin]` on both axes (margin = PADDING + SPRITE_R), for
every pointer input — present, outside the region, or absent — given that
the sub-rectangle is nonempty and the position already satisfies the
EntityState invariant (the pointer-absent branch leaves it untouched). -/
theorem c1_step_in_bounds (rect : Rect) (mouse : Option Vec) (dt : ℝ) (s : State)
    (hbx : PADDING + SPRITE_R ≤ rect.width - PADDING - SPRITE_R)
    (hby : PADDING + SPRITE_R ≤ rect.height - PADDING - SPRITE_R)
    (hpx : PADDING + SPRITE_R ≤ s.pos.x ∧ s.pos.x ≤ rect.width - PADDING - SPRITE_R)
    (hpy : PADDING + SPRITE_R ≤ s.pos.y ∧ s.pos.y ≤ rect.height - PADDING - SPRITE_R) :
    (PADDING + SPRITE_R ≤ (tickMove rect mouse dt s).pos.x ∧
      (tickMove rect mouse dt s).pos.x ≤ rect.width - PADDING - SPRITE_R) ∧
    (PADDING + SPRITE_R ≤ (tickMove rect mouse dt s).pos.y ∧
      (tickMove rect mouse dt s).pos.y ≤ rect.height - PADDING - SPRITE_R) := by
  cases mouse with
  | none => exact ⟨hpx, hpy⟩
  | some m =>
    by_cases h : rect.width ≠ 0 ∧ rect.height ≠ 0
    · simp only [tickMove, if_pos h]
      exact ⟨⟨le_clamp _ _ _, clamp_le _ _ _ hbx⟩, ⟨le_clamp _ _ _, clamp_le _ _ _ hby⟩⟩
    · simp only [tickMove, if_neg h]
      exact ⟨hpx, hpy⟩

/-- Claim C1 witness: a concrete frame (arena 800 × 600, pointer present at
(780, 300), entity at the center) stays inside the movable sub-rectangle. -/
theorem c1_step_in_bounds_witness :
    (PADDING + SPRITE_R ≤ (tickMove ⟨800, 600⟩ (some ⟨780, 300⟩) (1/60)
        ⟨⟨400, 300⟩, ⟨0, 0⟩⟩).pos.x ∧
      (tickMove ⟨800, 600⟩ (some ⟨780, 300⟩) (1/60)
        ⟨⟨400, 300⟩, ⟨0, 0⟩⟩).pos.x ≤ (800 : ℝ) - PADDING - SPRITE_R) ∧
    (PADDING + SPRITE_R ≤ (tickMove ⟨800, 600⟩ (some ⟨780, 300⟩) (1/60)
        ⟨⟨400, 300⟩, ⟨0, 0⟩⟩).pos.y ∧
      (tickMove ⟨800, 600⟩ (some ⟨780, 300⟩) (1/60)
        ⟨⟨400, 300⟩, ⟨0, 0⟩⟩).pos.y ≤ (600 : ℝ) - PADDING - SPRITE_R) :=
  c1_step_in_bounds ⟨800, 600⟩ (some ⟨780, 300⟩) (1/60) ⟨⟨400, 300⟩, ⟨0, 0⟩⟩
    (by unfold PADDING SPRITE_R; norm_num) (by unfold PADDING SPRITE_R; norm_num)
    (by unfold PADDING SPRITE_R; norm_num) (by unfold PADDING SPRITE_R; norm_num)

end Yoints

end
